import Mathlib

/-
Verification development for the DecisionTrace backend core:
the structured-generation client (`app/services/llm_client.py`),
the pipeline orchestrator (`app/agents/orchestrator.py`) and the
input/output schemas (`app/schemas/*.py`).

Python strings are modelled as lists of characters (`PyStr`), so that
every string operation used by the code (strip, startswith, find,
slicing, replace, substring containment) is an executable structural
function.  External capabilities (the model-calling HTTP client, the
database, the wall clock) are parameters: the model caller is an oracle
assigning an outcome to each upstream call, the store is a lookup
function, and the clock is a function from read-occurrence index to an
abstract integer timestamp.
-/

namespace DecisionTrace

/-- Python strings, modelled as lists of characters. -/
abbrev PyStr := List Char

/-- Whitespace characters recognised by Python `str.strip()` (ASCII part). -/
def pyIsSpace (c : Char) : Bool :=
  decide (c = ' ') || decide (c = '\t') || decide (c = '\n') || decide (c = '\r') ||
    decide (c = Char.ofNat 11) || decide (c = Char.ofNat 12)

/-- Drop leading whitespace, the first half of Python `str.strip()`. -/
def dropLeadingWs (s : PyStr) : PyStr := s.dropWhile pyIsSpace

/-- Drop trailing whitespace, the second half of Python `str.strip()`. -/
def dropTrailingWs (s : PyStr) : PyStr := (s.reverse.dropWhile pyIsSpace).reverse

/-- Python `str.strip()`: remove whitespace from both ends. -/
def pyStrip (s : PyStr) : PyStr := dropLeadingWs (dropTrailingWs s)

/-- Boolean character-list prefix test (Python `str.startswith`). -/
def isPre : PyStr → PyStr → Bool
  | [], _ => true
  | _ :: _, [] => false
  | a :: as, b :: bs => decide (a = b) && isPre as bs

/-- Boolean suffix test (Python `str.endswith`). -/
def endsWith (suf s : PyStr) : Bool := isPre suf.reverse s.reverse

/-- Python `response.find("\n")` followed by the slice `response[i+1:]`:
returns the remainder after the first newline, or `none` when there is
no newline (in which case the code keeps the string unchanged). -/
def dropThroughNewline : PyStr → Option PyStr
  | [] => none
  | c :: rest => if c = '\n' then some rest else dropThroughNewline rest

/-- The backtick character. -/
def btick : Char := Char.ofNat 96

/-- The three-backtick markdown code-fence marker. -/
def ticks3 : PyStr := [btick, btick, btick]

/-- Embedding of `LLMClient._clean_json_response`
(`app/services/llm_client.py:263-293`): strip the response; if it starts
with a code fence, drop through the first newline (keeping the string
when there is none), drop a trailing fence when present, and strip
again. -/
def clean_json_response (response : PyStr) : PyStr :=
  let r := pyStrip response
  if isPre ticks3 r then
    let r1 := (dropThroughNewline r).getD r
    let r2 := if endsWith ticks3 r1 then r1.take (r1.length - 3) else r1
    pyStrip r2
  else r

/-! ### Structured Generation Client (`app/services/llm_client.py`) -/

/-- The `ModelName` enum: the primary and the fallback model. -/
inductive Model where
  | primary
  | fallback
deriving DecidableEq, Repr

/-- The `value` of each `ModelName` member. -/
def modelValue : Model → PyStr
  | Model.primary => "deepseek/deepseek-chat".toList
  | Model.fallback => "qwen/qwen-2.5-7b-instruct".toList

/-- Outcome of one upstream call to `_call_openrouter`: a raw response
text, an `httpx.TimeoutException`, an `httpx.HTTPStatusError` with a
status code, or any other exception with a message. -/
inductive CallResult where
  | ok (text : PyStr)
  | timeout
  | transportError (status : Nat)
  | otherError (msg : PyStr)
deriving DecidableEq, Repr

/-- One upstream call attempt: which model was called and the
`retry_count` the client held when it issued the call. -/
structure CallRecord where
  model : Model
  retryCount : Nat
deriving DecidableEq, Repr

/-- The configuration the client reads from `settings`
(`app/config.py`): `MAX_RETRIES`, `ENABLE_FALLBACK`, `LLM_TIMEOUT`. -/
structure Config where
  maxRetries : Nat
  enableFallback : Bool
  timeout : Nat
deriving DecidableEq, Repr

/-- Message of the `GracefulFailureError` raised when all retry and
fallback attempts fail validation. -/
def allFailedMessage : PyStr :=
  "Decision analysis could not be completed reliably. All models failed validation.".toList

/-- Message of the `GracefulFailureError` raised on an upstream timeout. -/
def timeoutMessage (cfg : Config) : PyStr :=
  "Decision analysis timed out after ".toList ++ (toString cfg.timeout).toList ++
    " seconds.".toList

/-- Message of the `GracefulFailureError` raised on a non-success
transport status. -/
def transportMessage (status : Nat) : PyStr :=
  "LLM API error: ".toList ++ (toString status).toList

/-- Message of the `GracefulFailureError` wrapping any other exception
raised during the call. -/
def unexpectedMessage (msg : PyStr) : PyStr :=
  "Unexpected error during decision analysis: ".toList ++ msg

/-- Termination measure for the client recursion: the fallback budget is
spent after the primary budget, and `retryCount` grows towards
`maxRetries` on each same-model retry. -/
def genMeasure (cfg : Config) (model : Model) (retryCount : Nat) : Nat :=
  (if model = Model.primary then cfg.maxRetries + 1 else 0) + (cfg.maxRetries - retryCount)

/-- Embedding of `LLMClient.generate_structured`
(`app/services/llm_client.py:69-216`).  `oracle n` is the outcome of the
`n`-th upstream call of the enclosing run, `validate` is
`response_model.model_validate_json` composed with the code-fence
cleaner's output (returning `none` on a `pydantic.ValidationError`).
Returns the result — the validated value or the terminal
`GracefulFailureError` message — together with the list of upstream call
attempts actually made, in order. -/
def generate_structured {α : Type} (cfg : Config) (oracle : Nat → CallResult)
    (validate : PyStr → Option α) (model : Model) (retryCount : Nat) (callIdx : Nat) :
    Except PyStr α × List CallRecord :=
  match oracle callIdx with
  | CallResult.timeout => (Except.error (timeoutMessage cfg), [⟨model, retryCount⟩])
  | CallResult.transportError s => (Except.error (transportMessage s), [⟨model, retryCount⟩])
  | CallResult.otherError m => (Except.error (unexpectedMessage m), [⟨model, retryCount⟩])
  | CallResult.ok text =>
    match validate (clean_json_response text) with
    | some v => (Except.ok v, [⟨model, retryCount⟩])
    | none =>
      if retryCount < cfg.maxRetries then
        let rest := generate_structured cfg oracle validate model (retryCount + 1) (callIdx + 1)
        (rest.1, ⟨model, retryCount⟩ :: rest.2)
      else if model = Model.primary ∧ cfg.enableFallback = true then
        let rest := generate_structured cfg oracle validate Model.fallback 0 (callIdx + 1)
        (rest.1, ⟨model, retryCount⟩ :: rest.2)
      else
        (Except.error allFailedMessage, [⟨model, retryCount⟩])
termination_by genMeasure cfg model retryCount
decreasing_by
  · unfold genMeasure
    cases model <;> simp <;> omega
  · rename_i hmodel
    unfold genMeasure
    rcases hmodel with ⟨hm, -⟩
    subst hm
    simp
    omega

/-! ### Schemas (`app/schemas/outcome_simulation.py`, `app/schemas/decision_input.py`) -/

/-- One parsed scenario record, mirroring the fields of the
`OutcomeScenario` pydantic model (`app/schemas/outcome_simulation.py:27-70`).
The float `confidence` is modelled as a rational. -/
structure OutcomeScenario where
  scenario : PyStr
  description : PyStr
  risks : List PyStr
  confidence : Rat
  timeframe_months : Int
deriving DecidableEq, Repr

/-- Membership in the `ScenarioType` enum
(`app/schemas/outcome_simulation.py:12-24`). -/
def validScenarioType (s : PyStr) : Bool :=
  decide (s = "best_case".toList) || decide (s = "worst_case".toList) ||
    decide (s = "most_likely".toList)

/-- Field-level validation of one `OutcomeScenario`: a `ScenarioType`
tag, `description` of at least 20 characters, `confidence` in `[0, 1]`,
`timeframe_months` in `[1, 120]`. -/
def validOutcomeScenario (r : OutcomeScenario) : Bool :=
  validScenarioType r.scenario && decide (20 ≤ r.description.length) &&
    decide (0 ≤ r.confidence) && decide (r.confidence ≤ 1) &&
    decide (1 ≤ r.timeframe_months) && decide (r.timeframe_months ≤ 120)

/-- Validation of the `OutcomeSimulation` model
(`app/schemas/outcome_simulation.py:91-107`): the `scenarios` list has
`min_length=3, max_length=3` and every item validates. -/
def validOutcomeSimulation (scenarios : List OutcomeScenario) : Bool :=
  decide (scenarios.length = 3) && scenarios.all validOutcomeScenario

/-- The payload of a create-decision request before schema validation:
`constraints` and `options` may be omitted. -/
structure RawDecisionInput where
  title : PyStr
  context : PyStr
  constraints : Option (List PyStr)
  options : Option (List PyStr)
deriving DecidableEq, Repr

/-- A validated `DecisionInput` (`app/schemas/decision_input.py:10-43`). -/
structure DecisionInput where
  title : PyStr
  context : PyStr
  constraints : List PyStr
  options : List PyStr
deriving DecidableEq, Repr

/-- Embedding of the `DecisionInput` pydantic schema
(`app/schemas/decision_input.py:10-43`): `title` is 5–500 characters,
`context` 10–5000 characters, and omitted `constraints`/`options`
default to the empty list. -/
def validateDecisionInput (r : RawDecisionInput) : Option DecisionInput :=
  if 5 ≤ r.title.length ∧ r.title.length ≤ 500 ∧
      10 ≤ r.context.length ∧ r.context.length ≤ 5000 then
    some ⟨r.title, r.context, r.constraints.getD [], r.options.getD []⟩
  else none

/-! ### Substring containment (Python `in`, used by the routes) -/

/-- Python substring containment `needle in hay`. -/
def containsSub (needle : PyStr) : PyStr → Bool
  | [] => needle.isEmpty
  | c :: rest => isPre needle (c :: rest) || containsSub needle rest

/-! ### UUID parsing (CPython `uuid.UUID`, used by `add_reflection`) -/

/-- Remove every occurrence of `sub` from `s` with a fuel of `s.length`
(each step consumes at least one character), mirroring Python
`s.replace(sub, "")` for a non-empty `sub`. -/
def removeAllAux (sub : PyStr) : Nat → PyStr → PyStr
  | 0, s => s
  | _ + 1, [] => []
  | fuel + 1, c :: rest =>
    if isPre sub (c :: rest) && decide (0 < sub.length) then
      removeAllAux sub fuel (rest.drop (sub.length - 1))
    else c :: removeAllAux sub fuel rest

/-- Python `s.replace(sub, "")`. -/
def pyRemoveAll (sub s : PyStr) : PyStr := removeAllAux sub s.length s

/-- Python `s.strip(chars)`: drop characters of `chars` from both ends. -/
def pyStripChars (chars s : PyStr) : PyStr :=
  ((s.dropWhile (chars.contains ·)).reverse.dropWhile (chars.contains ·)).reverse

/-- The opening and closing brace characters stripped by
`uuid.UUID`. -/
def braceChars : PyStr := [Char.ofNat 123, Char.ofNat 125]

/-- Value of one hexadecimal digit. -/
def hexDigitVal (c : Char) : Option Nat :=
  if decide ('0' ≤ c) && decide (c ≤ '9') then some (c.toNat - '0'.toNat)
  else if decide ('a' ≤ c) && decide (c ≤ 'f') then some (c.toNat - 'a'.toNat + 10)
  else if decide ('A' ≤ c) && decide (c ≤ 'F') then some (c.toNat - 'A'.toNat + 10)
  else none

/-- Accumulator loop for base-16 parsing. -/
def hexToNatAux : Nat → PyStr → Option Nat
  | acc, [] => some acc
  | acc, c :: rest =>
    match hexDigitVal c with
    | some v => hexToNatAux (16 * acc + v) rest
    | none => none

/-- Base-16 integer parsing of a plain string of hex digits, the form
`int(hex, 16)` receives from `uuid.UUID` after cleaning. -/
def hexToNat (s : PyStr) : Option Nat :=
  if s.isEmpty then none else hexToNatAux 0 s

/-- Cleaning performed by `uuid.UUID(hex=...)`: remove `urn:` and
`uuid:` markers, strip surrounding braces, remove dashes. -/
def uuidClean (s : PyStr) : PyStr :=
  pyRemoveAll "-".toList
    (pyStripChars braceChars (pyRemoveAll "uuid:".toList (pyRemoveAll "urn:".toList s)))

/-- The `ValueError` message for a cleaned hex string of the wrong
length. -/
def badlyFormedMsg : PyStr := "badly formed hexadecimal UUID string".toList

/-- The single-quote character. -/
def squote : Char := Char.ofNat 39

/-- The `ValueError` message raised by `int(hex, 16)` on a non-hex
string: it echoes the offending string between single quotes. -/
def invalidLiteralMsg (s : PyStr) : PyStr :=
  "invalid literal for int() with base 16: ".toList ++ [squote] ++ s ++ [squote]

/-- Modelled from the CPython standard library (external to the
repository): `uuid.UUID(decision_id)` as called by
`DecisionOrchestrator.add_reflection` (`app/agents/orchestrator.py:419`).
Cleans the string, requires exactly 32 characters (else the
badly-formed `ValueError`), then parses it in base 16 (else the
invalid-literal `ValueError`, which echoes the cleaned string).  The
plain hex-digit form is modelled; exotic `int()` inputs (signs,
underscores, surrounding whitespace) are treated as parse failures. -/
def parseUUID (s : PyStr) : Except PyStr Nat :=
  let hex := uuidClean s
  if hex.length = 32 then
    match hexToNat hex with
    | some n => Except.ok n
    | none => Except.error (invalidLiteralMsg hex)
  else Except.error badlyFormedMsg

/-! ### Pipeline Orchestrator (`app/agents/orchestrator.py`) -/

/-- Status recorded in a stage execution-log entry. -/
inductive LogStatus where
  | success
  | failed
deriving DecidableEq, Repr

/-- One stage record appended to `execution_log` by
`DecisionOrchestrator._execute_with_logging`
(`app/agents/orchestrator.py:202-309`).  Success entries carry
`model_used` and no error; failure entries carry the error and no
`model_used`. -/
structure StageEntry where
  agent : PyStr
  status : LogStatus
  error : Option PyStr
  startTime : Int
  endTime : Int
  durationMs : Int
  modelUsed : Option PyStr
deriving DecidableEq, Repr

/-- An `execution_log` element: a stage record, or the final
`pipeline_failed` event (`app/agents/orchestrator.py:159-164`), or the
`pipeline_error` event for a non-`GracefulFailureError` exception
(`app/agents/orchestrator.py:181-187`; unreachable in this model where
stages only fail with `GracefulFailureError` messages). -/
inductive ExecEntry where
  | stage (e : StageEntry)
  | pipelineFailed (error : PyStr) (timestamp : Int) (durationMs : Int)
  | pipelineError (error : PyStr) (errorType : PyStr) (timestamp : Int) (durationMs : Int)
deriving DecidableEq, Repr

/-- Orchestrator-run state threaded through the stage calls: the next
clock-read index, the next upstream-call index, the accumulated
execution log, and the client's mutable `current_model`. -/
structure OrchState where
  tick : Nat
  callIdx : Nat
  log : List ExecEntry
  currentModel : Option PyStr
deriving DecidableEq, Repr

/-- The client sets `current_model` at the start of every invocation,
so after a stage run it names the model of the last call made; with no
call made it keeps its previous value. -/
def updatedModel (calls : List CallRecord) (prev : Option PyStr) : Option PyStr :=
  match calls.getLast? with
  | some c => some (modelValue c.model)
  | none => prev

/-- Embedding of `DecisionOrchestrator._execute_with_logging`
(`app/agents/orchestrator.py:202-309`): read the start time, run the
stage (`agent.execute`, which performs one client run), read the end
time, and append exactly one success or failure entry to the log. -/
def execute_with_logging {σ : Type} (clock : Nat → Int) (agentName : PyStr)
    (run : Nat → Except PyStr σ × List CallRecord) (st : OrchState) :
    Except PyStr σ × OrchState :=
  let startT := clock st.tick
  let out := run st.callIdx
  let endT := clock (st.tick + 1)
  let dur := endT - startT
  let newModel := updatedModel out.2 st.currentModel
  match out.1 with
  | Except.ok v =>
    (Except.ok v,
      { tick := st.tick + 2, callIdx := st.callIdx + out.2.length,
        log := st.log ++
          [ExecEntry.stage ⟨agentName, LogStatus.success, none, startT, endT, dur, newModel⟩],
        currentModel := newModel })
  | Except.error e =>
    (Except.error e,
      { tick := st.tick + 2, callIdx := st.callIdx + out.2.length,
        log := st.log ++
          [ExecEntry.stage ⟨agentName, LogStatus.failed, some e, startT, endT, dur, none⟩],
        currentModel := newModel })

/-- The `agent` name of each pipeline stage. -/
def structuringName : PyStr := "DecisionStructuringAgent".toList

/-- The `agent` name of the bias-detection stage. -/
def biasName : PyStr := "BiasDetectionAgent".toList

/-- The `agent` name of the outcome-simulation stage. -/
def outcomeName : PyStr := "OutcomeSimulationAgent".toList

/-- The `agent` name of the reflection stage. -/
def reflectionName : PyStr := "ReflectionAgent".toList

/-- The assembled result handed to the persistence collaborator by
`DecisionOrchestrator._save_decision` (`app/agents/orchestrator.py:342-353`). -/
structure Assembled (σ : Type) where
  title : PyStr
  context : PyStr
  constraints : List PyStr
  options : List PyStr
  structured_decision : σ
  bias_report : σ
  outcome_simulations : σ
  execution_log : List ExecEntry
deriving DecidableEq

/-- Result of one `process_decision` run: the returned value or the
propagated terminal-failure message, the final execution log, and what
(if anything) was handed to the persistence collaborator. -/
structure PipelineOutput (σ : Type) where
  result : Except PyStr (Assembled σ)
  log : List ExecEntry
  persisted : Option (Assembled σ)

/-- Embedding of `DecisionOrchestrator.process_decision`
(`app/agents/orchestrator.py:70-200`): run Structuring, BiasDetection
and OutcomeSimulation strictly in order, each stage's run built from the
previous stages' validated outputs; on the first terminal failure append
a `pipeline_failed` entry with the total elapsed time and propagate the
failure with nothing persisted; on success hand the assembled result to
persistence.  Clock reads: pipeline start, then start/end per stage, the
pipeline end read happening at the current tick of the failing state. -/
def process_decision {σ : Type} (clock : Nat → Int) (inp : DecisionInput)
    (run1 : Nat → Except PyStr σ × List CallRecord)
    (run2 : σ → Nat → Except PyStr σ × List CallRecord)
    (run3 : σ → σ → Nat → Except PyStr σ × List CallRecord) : PipelineOutput σ :=
  let startT := clock 0
  let st0 : OrchState := ⟨1, 0, [], none⟩
  match execute_with_logging clock structuringName run1 st0 with
  | (Except.error e, st) =>
    let endT := clock st.tick
    ⟨Except.error e, st.log ++ [ExecEntry.pipelineFailed e endT (endT - startT)], none⟩
  | (Except.ok structured, st) =>
    match execute_with_logging clock biasName (run2 structured) st with
    | (Except.error e, st2) =>
      let endT := clock st2.tick
      ⟨Except.error e, st2.log ++ [ExecEntry.pipelineFailed e endT (endT - startT)], none⟩
    | (Except.ok bias, st2) =>
      match execute_with_logging clock outcomeName (run3 structured bias) st2 with
      | (Except.error e, st3) =>
        let endT := clock st3.tick
        ⟨Except.error e, st3.log ++ [ExecEntry.pipelineFailed e endT (endT - startT)], none⟩
      | (Except.ok outcomes, st3) =>
        let assembled : Assembled σ :=
          ⟨inp.title, inp.context, inp.constraints, inp.options,
            structured, bias, outcomes, st3.log⟩
        ⟨Except.ok assembled, st3.log, some assembled⟩

/-- The create-decision route (`app/api/routes/decisions.py:40-120`):
FastAPI validates the body against `DecisionInput` before the handler
runs, so an out-of-bounds input is rejected (`none`, an HTTP 422) with
the orchestrator never invoked; a valid input runs the pipeline. -/
def create_decision {σ : Type} (clock : Nat → Int) (raw : RawDecisionInput)
    (run1 : Nat → Except PyStr σ × List CallRecord)
    (run2 : σ → Nat → Except PyStr σ × List CallRecord)
    (run3 : σ → σ → Nat → Except PyStr σ × List CallRecord) :
    Option (PipelineOutput σ) :=
  match validateDecisionInput raw with
  | none => none
  | some inp => some (process_decision clock inp run1 run2 run3)

/-- A stage run as produced by `BaseAgent.execute`
(`app/agents/base.py:84-177`): one client run starting on the Primary
model with `retry_count = 0`. -/
def clientStage {α : Type} (cfg : Config) (oracle : Nat → CallResult)
    (validate : PyStr → Option α) : Nat → Except PyStr α × List CallRecord :=
  fun idx => generate_structured cfg oracle validate Model.primary 0 idx

/-! ### Reflection (`DecisionOrchestrator.add_reflection`) -/

/-- A persisted decision row (`app/models/decision.py`), as read and
updated by `add_reflection`. -/
structure StoredDecision (σ : Type) where
  title : PyStr
  context : PyStr
  constraints : List PyStr
  options : List PyStr
  structured_decision : σ
  bias_report : σ
  outcome_simulations : σ
  reflection_insight : Option σ
  actual_outcome : Option PyStr
  actual_outcome_date : Option Int
  execution_log : List ExecEntry
deriving DecidableEq

/-- Result of one `add_reflection` call: the returned updated decision
or the terminal-failure message, and how many reflection-stage
executions were started. -/
structure ReflectionOutput (σ : Type) where
  result : Except PyStr (StoredDecision σ)
  stageCalls : Nat

/-- The not-found `GracefulFailureError` message
(`app/agents/orchestrator.py:424`). -/
def notFoundMessage (id : PyStr) : PyStr :=
  "Decision ".toList ++ id ++ " not found".toList

/-- The generic wrapper applied to any non-`GracefulFailureError`
exception in `add_reflection` (`app/agents/orchestrator.py:486-488`). -/
def wrapReflectionError (m : PyStr) : PyStr :=
  "Failed to add reflection: ".toList ++ m

/-- Embedding of `DecisionOrchestrator.add_reflection`
(`app/agents/orchestrator.py:387-488`): parse the id as a UUID (a
`ValueError` is wrapped into the generic message), look the decision up
(absent → the not-found message, no stage run), run exactly one
Reflection stage; on success set the reflection fields and update the
execution log, returning the decision as it stands after
`commit()`/`refresh()`.  The log update models the ORM semantics of
`orchestrator.py:453-461` against `models/decision.py`: when the
existing log is non-empty (truthy) the code calls
`decision.execution_log.extend(execution_log)`, an in-place mutation of
a plain `JSONB` column (no `MutableList`, no `flag_modified` anywhere in
the repository), which SQLAlchemy does not detect — `commit()` flushes
only the assigned columns (`reflection_insight`, `actual_outcome`,
`actual_outcome_date`) and `refresh()` re-selects the row, replacing the
in-memory list with the stale stored value, so the returned decision
keeps the old log; when the existing log is empty (falsy) the code
assigns `decision.execution_log = execution_log`, a tracked attribute
assignment that is flushed, so the new entries survive. -/
def add_reflection {σ : Type} (clock : Nat → Int)
    (findById : Nat → Option (StoredDecision σ))
    (runReflection : StoredDecision σ → PyStr → Nat → Except PyStr σ × List CallRecord)
    (decisionId : PyStr) (actualOutcome : PyStr) : ReflectionOutput σ :=
  match parseUUID decisionId with
  | Except.error m => ⟨Except.error (wrapReflectionError m), 0⟩
  | Except.ok u =>
    match findById u with
    | none => ⟨Except.error (notFoundMessage decisionId), 0⟩
    | some d =>
      let st0 : OrchState := ⟨0, 0, [], none⟩
      match execute_with_logging clock reflectionName (runReflection d actualOutcome) st0 with
      | (Except.error e, _) => ⟨Except.error e, 1⟩
      | (Except.ok insight, st) =>
        ⟨Except.ok { d with
            reflection_insight := some insight,
            actual_outcome := some actualOutcome,
            actual_outcome_date := some (clock st.tick),
            execution_log :=
              if d.execution_log.isEmpty then st.log else d.execution_log }, 1⟩

/-! ### Concrete fixtures used by witnesses and counterexamples -/

/-- Count the stage entries of a log bearing a given agent name. -/
def countAgentEntries (log : List ExecEntry) (nm : PyStr) : Nat :=
  log.countP fun e =>
    match e with
    | ExecEntry.stage se => decide (se.agent = nm)
    | _ => false

/-- The repository default configuration: `MAX_RETRIES = 1`,
`ENABLE_FALLBACK = True`, `LLM_TIMEOUT = 60` (`app/config.py:42-53`). -/
def cfg1 : Config := ⟨1, true, 60⟩

/-- An upstream oracle whose first response is invalid and whose later
responses are valid. -/
def oracleRetryOnce : Nat → CallResult :=
  fun n => CallResult.ok (if n = 0 then "bad".toList else "good".toList)

/-- A validator accepting exactly the text `good`. -/
def validateGood : PyStr → Option PyStr :=
  fun t => if t = "good".toList then some t else none

/-- A small valid decision input. -/
def inpEx : DecisionInput :=
  ⟨"Relocate for new job?".toList, "An offer with a higher salary in another city.".toList,
    ["Must relocate".toList], ["Accept".toList, "Decline".toList]⟩

/-- The identity clock. -/
def clockId : Nat → Int := fun t => (t : Int)

/-- A pipeline run in which the structuring stage's client retries once
and every stage then succeeds. -/
def pipeEx : PipelineOutput PyStr :=
  process_decision clockId inpEx (clientStage cfg1 oracleRetryOnce validateGood)
    (fun _ => clientStage cfg1 oracleRetryOnce validateGood)
    (fun _ _ => clientStage cfg1 oracleRetryOnce validateGood)

/-! ### Lemmas and theorems -/

/-! ### Helper lemmas about the string model -/

lemma dropWhile_append_of_all {p : Char → Bool} {ws : PyStr} (x : PyStr)
    (h : ∀ c ∈ ws, p c = true) :
    (ws ++ x).dropWhile p = x.dropWhile p := by
  induction ws with
  | nil => rfl
  | cons c cs ih =>
    simp only [List.cons_append, List.dropWhile_cons, h c (by simp)]
    exact ih (fun d hd => h d (by simp [hd]))

lemma dropLeadingWs_ws_append {ws : PyStr} (x : PyStr)
    (h : ∀ c ∈ ws, pyIsSpace c = true) :
    dropLeadingWs (ws ++ x) = dropLeadingWs x :=
  dropWhile_append_of_all x h

lemma dropTrailingWs_append_ws {ws : PyStr} (x : PyStr)
    (h : ∀ c ∈ ws, pyIsSpace c = true) :
    dropTrailingWs (x ++ ws) = dropTrailingWs x := by
  unfold dropTrailingWs
  rw [List.reverse_append, dropWhile_append_of_all x.reverse (fun c hc => h c (by simpa using hc))]

lemma dropLeadingWs_cons_of_not_space {c : Char} (x : PyStr)
    (h : pyIsSpace c = false) : dropLeadingWs (c :: x) = c :: x := by
  simp [dropLeadingWs, List.dropWhile_cons, h]

lemma dropTrailingWs_append_singleton_of_not_space {c : Char} (x : PyStr)
    (h : pyIsSpace c = false) : dropTrailingWs (x ++ [c]) = x ++ [c] := by
  simp [dropTrailingWs, List.dropWhile_cons, h]

lemma pyIsSpace_btick : pyIsSpace btick = false := by decide

lemma isPre_append_self (xs ys : PyStr) : isPre xs (xs ++ ys) = true := by
  induction xs with
  | nil => rfl
  | cons a as ih => simp [isPre, ih]

lemma dropThroughNewline_no_newline_append {xs : PyStr} (ys : PyStr)
    (h : ∀ c ∈ xs, c ≠ '\n') :
    dropThroughNewline (xs ++ '\n' :: ys) = some ys := by
  induction xs with
  | nil => simp [dropThroughNewline]
  | cons c cs ih =>
    have hc : c ≠ '\n' := h c (by simp)
    simp only [List.cons_append, dropThroughNewline, if_neg hc]
    exact ih (fun d hd => h d (by simp [hd]))

lemma take_length_add {α : Type} (p q : List α) (n : Nat) :
    (p ++ q).take (p.length + n) = p ++ q.take n := by
  induction p with
  | nil => simp
  | cons a as ih => simp [List.take, Nat.succ_add, ih]

lemma pyStrip_append_newline (p : PyStr) : pyStrip (p ++ ['\n']) = pyStrip p := by
  unfold pyStrip
  rw [dropTrailingWs_append_ws p (by intro c hc; simp at hc; simp [hc, pyIsSpace])]

/-- C7 helper: stripping whitespace around a string that starts and ends
with a backtick leaves it unchanged. -/
lemma pyStrip_ws_wrap {ws1 ws2 : PyStr} (core : PyStr)
    (h1 : ∀ c ∈ ws1, pyIsSpace c = true) (h2 : ∀ c ∈ ws2, pyIsSpace c = true)
    (hhead : ∃ rest, core = btick :: rest) (hlast : ∃ init, core = init ++ [btick]) :
    pyStrip (ws1 ++ core ++ ws2) = core := by
  obtain ⟨rest, hr⟩ := hhead
  obtain ⟨init, hi⟩ := hlast
  unfold pyStrip
  rw [dropTrailingWs_append_ws _ h2]
  rw [hi, ← List.append_assoc, dropTrailingWs_append_singleton_of_not_space _ pyIsSpace_btick]
  rw [List.append_assoc, ← hi, hr, dropLeadingWs_ws_append _ h1,
    dropLeadingWs_cons_of_not_space _ pyIsSpace_btick]

lemma endsWith_append_self (xs s : PyStr) : endsWith s (xs ++ s) = true := by
  simp only [endsWith, List.reverse_append]
  exact isPre_append_self s.reverse xs.reverse

/-- C7: for every raw model response text, `generate` strips any
surrounding markdown code-fence markers (a leading three-backtick line,
including a language tag, and a trailing three-backtick marker) together
with surrounding whitespace before parsing, so a payload wrapped in code
fences is cleaned to the same text as the bare payload and therefore
validates the same. -/
theorem C7_code_fence_stripping (ws1 ws2 t p : PyStr)
    (h1 : ∀ c ∈ ws1, pyIsSpace c = true) (h2 : ∀ c ∈ ws2, pyIsSpace c = true)
    (ht : ∀ c ∈ t, c ≠ '\n')
    (hp : isPre ticks3 (pyStrip p) = false) :
    clean_json_response (ws1 ++ (ticks3 ++ (t ++ ('\n' :: (p ++ ('\n' :: ticks3))))) ++ ws2)
      = clean_json_response p := by
  have hcore : pyStrip (ws1 ++ (ticks3 ++ (t ++ ('\n' :: (p ++ ('\n' :: ticks3))))) ++ ws2)
      = ticks3 ++ (t ++ ('\n' :: (p ++ ('\n' :: ticks3)))) := by
    refine pyStrip_ws_wrap _ h1 h2 ⟨btick :: btick :: (t ++ ('\n' :: (p ++ ('\n' :: ticks3)))), by
      simp [ticks3]⟩ ⟨ticks3 ++ (t ++ ('\n' :: (p ++ ['\n', btick, btick]))), by simp [ticks3]⟩
  have hno : ∀ c ∈ ticks3 ++ t, c ≠ '\n' := by
    intro c hc
    rcases List.mem_append.mp hc with h | h
    · simp only [ticks3, List.mem_cons, List.mem_singleton] at h
      rcases h with rfl | rfl | rfl | h
      · decide
      · decide
      · decide
      · simp at h
    · exact ht c h
  have hdrop : dropThroughNewline (ticks3 ++ (t ++ ('\n' :: (p ++ ('\n' :: ticks3)))))
      = some (p ++ ('\n' :: ticks3)) := by
    rw [show ticks3 ++ (t ++ ('\n' :: (p ++ ('\n' :: ticks3))))
        = (ticks3 ++ t) ++ ('\n' :: (p ++ ('\n' :: ticks3))) by simp]
    exact dropThroughNewline_no_newline_append _ hno
  have hend : endsWith ticks3 (p ++ ('\n' :: ticks3)) = true := by
    rw [show p ++ ('\n' :: ticks3) = (p ++ ['\n']) ++ ticks3 by simp]
    exact endsWith_append_self _ _
  have hlen : (p ++ ('\n' :: ticks3)).length - 3 = p.length + 1 := by
    simp [ticks3]
  have htake : (p ++ ('\n' :: ticks3)).take (p.length + 1) = p ++ ['\n'] := by
    rw [take_length_add p ('\n' :: ticks3) 1]
    simp
  simp only [clean_json_response, hcore, hdrop, Option.getD_some, hend, hlen, htake,
    isPre_append_self, if_true, pyStrip_append_newline, hp, Bool.false_eq_true, if_false]

/-- When every response fails validation, the fallback model consumes
its remaining budget `d` and fails, one call per retry count. -/
lemma generate_allfail_fallback {α : Type} (cfg : Config) (oracle : Nat → CallResult)
    (validate : PyStr → Option α)
    (hfail : ∀ n, ∃ t, oracle n = CallResult.ok t ∧ validate (clean_json_response t) = none) :
    ∀ d r idx, r + d = cfg.maxRetries →
      generate_structured cfg oracle validate Model.fallback r idx =
        (Except.error allFailedMessage,
          (List.range (d + 1)).map (fun i => (⟨Model.fallback, r + i⟩ : CallRecord))) := by
  intro d
  induction d with
  | zero =>
    intro r idx hr
    obtain ⟨t, hok, hval⟩ := hfail idx
    rw [generate_structured, hok]
    simp only [hval]
    have hnr : ¬ r < cfg.maxRetries := by omega
    simp [hnr, show List.range 1 = [0] from rfl]
  | succ d ih =>
    intro r idx hr
    obtain ⟨t, hok, hval⟩ := hfail idx
    rw [generate_structured, hok]
    simp only [hval]
    have hlt : r < cfg.maxRetries := by omega
    rw [if_pos hlt, ih (r + 1) (idx + 1) (by omega)]
    have hmap : (fun i => (⟨Model.fallback, r + 1 + i⟩ : CallRecord)) =
        fun i => (⟨Model.fallback, r + (i + 1)⟩ : CallRecord) := by
      funext i
      congr 1
      omega
    simp [List.range_succ_eq_map, List.map_map, hmap, Function.comp]

/-- When every response fails validation and fallback is enabled, the
primary model consumes its remaining budget `d`, escalates exactly once,
and the fallback then consumes its own full budget. -/
lemma generate_allfail_primary {α : Type} (cfg : Config) (oracle : Nat → CallResult)
    (validate : PyStr → Option α) (hfb : cfg.enableFallback = true)
    (hfail : ∀ n, ∃ t, oracle n = CallResult.ok t ∧ validate (clean_json_response t) = none) :
    ∀ d r idx, r + d = cfg.maxRetries →
      generate_structured cfg oracle validate Model.primary r idx =
        (Except.error allFailedMessage,
          (List.range (d + 1)).map (fun i => (⟨Model.primary, r + i⟩ : CallRecord)) ++
            (List.range (cfg.maxRetries + 1)).map
              (fun i => (⟨Model.fallback, i⟩ : CallRecord))) := by
  intro d
  induction d with
  | zero =>
    intro r idx hr
    obtain ⟨t, hok, hval⟩ := hfail idx
    rw [generate_structured, hok]
    simp only [hval]
    have hnr : ¬ r < cfg.maxRetries := by omega
    rw [if_neg hnr, if_pos (by exact ⟨by trivial, hfb⟩),
      generate_allfail_fallback cfg oracle validate hfail cfg.maxRetries 0 (idx + 1) (by omega)]
    simp [show List.range 1 = [0] from rfl]
  | succ d ih =>
    intro r idx hr
    obtain ⟨t, hok, hval⟩ := hfail idx
    rw [generate_structured, hok]
    simp only [hval]
    have hlt : r < cfg.maxRetries := by omega
    rw [if_pos hlt, ih (r + 1) (idx + 1) (by omega)]
    have hmap : (fun i => (⟨Model.primary, r + 1 + i⟩ : CallRecord)) =
        fun i => (⟨Model.primary, r + (i + 1)⟩ : CallRecord) := by
      funext i
      congr 1
      omega
    simp [List.range_succ_eq_map, List.map_map, hmap, Function.comp]

/-- C1: if every call's response fails schema validation and fallback is
enabled, `generate_structured` makes exactly `2 * (1 + retryLimit)`
upstream calls before returning the terminal all-failed message: first
`1 + retryLimit` calls on the Primary model with retry counts
`0, …, retryLimit`, then a single escalation to the Fallback model with
the attempt counter reset to zero, then `1 + retryLimit` calls on
Fallback — escalation occurs exactly once and never from Fallback. -/
theorem C1_worst_case_call_count {α : Type} (cfg : Config) (oracle : Nat → CallResult)
    (validate : PyStr → Option α) (idx : Nat) (hfb : cfg.enableFallback = true)
    (hfail : ∀ n, ∃ t, oracle n = CallResult.ok t ∧ validate (clean_json_response t) = none) :
    generate_structured cfg oracle validate Model.primary 0 idx =
      (Except.error allFailedMessage,
        (List.range (cfg.maxRetries + 1)).map (fun i => (⟨Model.primary, i⟩ : CallRecord)) ++
          (List.range (cfg.maxRetries + 1)).map (fun i => (⟨Model.fallback, i⟩ : CallRecord))) ∧
    (generate_structured cfg oracle validate Model.primary 0 idx).2.length =
      2 * (1 + cfg.maxRetries) := by
  have h := generate_allfail_primary cfg oracle validate hfb hfail cfg.maxRetries 0 idx (by omega)
  simp only [Nat.zero_add] at h
  refine ⟨h, ?_⟩
  rw [h]
  simp
  omega

/-- Witness for C1 at `MAX_RETRIES = 1`, fallback enabled, every
response failing validation: four calls, primary twice then fallback
twice, with the retry counter reset on escalation. -/
theorem C1_witness :
    (∀ n : Nat, ∃ t, (fun _ : Nat => CallResult.ok ['x']) n = CallResult.ok t ∧
      (fun _ : PyStr => (none : Option Unit)) (clean_json_response t) = none) ∧
    generate_structured ⟨1, true, 60⟩ (fun _ => CallResult.ok ['x'])
      (fun _ => (none : Option Unit)) Model.primary 0 0 =
      (Except.error allFailedMessage,
        [⟨Model.primary, 0⟩, ⟨Model.primary, 1⟩, ⟨Model.fallback, 0⟩, ⟨Model.fallback, 1⟩]) ∧
    (generate_structured ⟨1, true, 60⟩ (fun _ => CallResult.ok ['x'])
      (fun _ => (none : Option Unit)) Model.primary 0 0).2.length = 2 * (1 + 1) := by
  have h := C1_worst_case_call_count ⟨1, true, 60⟩ (fun _ => CallResult.ok ['x'])
    (fun _ => (none : Option Unit)) 0 rfl (fun n => ⟨['x'], rfl, rfl⟩)
  refine ⟨fun n => ⟨['x'], rfl, rfl⟩, ?_, h.2⟩
  rw [h.1]
  simp [show List.range 2 = [0, 1] from rfl]

/-- C4: a network timeout or a non-success transport status on any call
attempt — whatever the model in use, the current retry count, or the
remaining budget — immediately produces the terminal failure: exactly
one upstream call is recorded for that invocation, with no retry and no
fallback escalation. -/
theorem C4_timeout_transport_terminal {α : Type} (cfg : Config) (oracle : Nat → CallResult)
    (validate : PyStr → Option α) (model : Model) (r idx s : Nat) :
    (oracle idx = CallResult.timeout →
      generate_structured cfg oracle validate model r idx =
        (Except.error (timeoutMessage cfg), [⟨model, r⟩])) ∧
    (oracle idx = CallResult.transportError s →
      generate_structured cfg oracle validate model r idx =
        (Except.error (transportMessage s), [⟨model, r⟩])) := by
  constructor <;> intro h <;> rw [generate_structured, h]

/-- Witness for C4: a timeout on the primary with a full budget left,
and a transport error on the fallback mid-retry, each produce the
terminal failure after the single recorded call. -/
theorem C4_witness :
    generate_structured ⟨3, true, 60⟩ (fun _ => CallResult.timeout)
      (fun _ => (none : Option Unit)) Model.primary 0 0 =
      (Except.error (timeoutMessage ⟨3, true, 60⟩), [⟨Model.primary, 0⟩]) ∧
    generate_structured ⟨3, true, 60⟩ (fun _ => CallResult.transportError 500)
      (fun _ => (none : Option Unit)) Model.fallback 2 0 =
      (Except.error (transportMessage 500), [⟨Model.fallback, 2⟩]) :=
  ⟨(C4_timeout_transport_terminal ⟨3, true, 60⟩ (fun _ => CallResult.timeout)
      (fun _ => (none : Option Unit)) Model.primary 0 0 500).1 rfl,
    (C4_timeout_transport_terminal ⟨3, true, 60⟩ (fun _ => CallResult.transportError 500)
      (fun _ => (none : Option Unit)) Model.fallback 2 0 500).2 rfl⟩

/-- Witness for C7: a fenced JSON payload with a `json` language tag and
surrounding whitespace cleans to the same text as the bare payload. -/
theorem C7_witness :
    (∀ c ∈ (" ".toList : PyStr), pyIsSpace c = true) ∧
    (∀ c ∈ ("\n".toList : PyStr), pyIsSpace c = true) ∧
    (∀ c ∈ ("json".toList : PyStr), c ≠ '\n') ∧
    isPre ticks3 (pyStrip "[1, 2]".toList) = false ∧
    clean_json_response
        (" ".toList ++ (ticks3 ++ ("json".toList ++
          ('\n' :: ("[1, 2]".toList ++ ('\n' :: ticks3))))) ++ "\n".toList)
      = clean_json_response "[1, 2]".toList :=
  ⟨by decide, by decide, by decide, by decide,
    C7_code_fence_stripping " ".toList "\n".toList "json".toList "[1, 2]".toList
      (by decide) (by decide) (by decide) (by decide)⟩

/-- C3 counterexample: a scenarios list with the tag `best_case`
repeated three times — so with `worst_case` and `most_likely` missing —
passes `OutcomeSimulation` validation, refuting the claim that
validation succeeds only when the three tags are precisely
`best_case`, `worst_case` and `most_likely`. -/
theorem C3_counterexample :
    validOutcomeSimulation
        (List.replicate 3
          ⟨"best_case".toList, "a long enough scenario description".toList, [], 1, 12⟩) = true ∧
    (List.replicate 3
        (⟨"best_case".toList, "a long enough scenario description".toList, [], 1, 12⟩ :
          OutcomeScenario)).map (fun r => r.scenario) =
      ["best_case".toList, "best_case".toList, "best_case".toList] := by
  constructor
  · decide
  · rfl

/-- C3 (amended): validation of the OutcomeSimulation stage's output
succeeds exactly when the scenarios list has precisely three entries and
every entry carries one of the tags `best_case`, `worst_case`,
`most_likely` together with its field constraints; fewer or more than
three entries, or an unknown tag, fail — but distinctness of the tags is
not checked, so missing or duplicated tags among the three valid ones
still validate. -/
theorem C3_exactly_three_scenarios_amended (scenarios : List OutcomeScenario) :
    validOutcomeSimulation scenarios = true ↔
      (scenarios.length = 3 ∧ ∀ r ∈ scenarios,
        (r.scenario = "best_case".toList ∨ r.scenario = "worst_case".toList ∨
          r.scenario = "most_likely".toList) ∧
        20 ≤ r.description.length ∧ 0 ≤ r.confidence ∧ r.confidence ≤ 1 ∧
        1 ≤ r.timeframe_months ∧ r.timeframe_months ≤ 120) := by
  simp [validOutcomeSimulation, validOutcomeScenario, validScenarioType,
    List.all_eq_true, and_assoc, or_assoc]

/-- C10: the public input validation accepts a candidate decision input
exactly when the title length is within 5–500 and the context length
within 10–5000 (inclusive); omitted constraints and options default to
empty lists; and a rejected input never reaches the pipeline — the
route returns before any stage runs. -/
theorem C10_decision_input_bounds {σ : Type} (clock : Nat → Int) (raw : RawDecisionInput)
    (run1 : Nat → Except PyStr σ × List CallRecord)
    (run2 : σ → Nat → Except PyStr σ × List CallRecord)
    (run3 : σ → σ → Nat → Except PyStr σ × List CallRecord) :
    ((validateDecisionInput raw).isSome = true ↔
      (5 ≤ raw.title.length ∧ raw.title.length ≤ 500 ∧
        10 ≤ raw.context.length ∧ raw.context.length ≤ 5000)) ∧
    (∀ inp, validateDecisionInput raw = some inp →
      inp = ⟨raw.title, raw.context, raw.constraints.getD [], raw.options.getD []⟩) ∧
    (validateDecisionInput raw = none →
      create_decision clock raw run1 run2 run3 = none) := by
  refine ⟨?_, ?_, ?_⟩
  · unfold validateDecisionInput
    split <;> simp_all
  · intro inp h
    unfold validateDecisionInput at h
    split at h
    · injection h with h2
      exact h2.symm
    · exact absurd h (by simp)
  · intro h
    simp [create_decision, h]

/-- Witness for C10: a 5-character title with a 10-character context
validates with defaulted lists, and a too-short input is rejected with
the pipeline never invoked. -/
theorem C10_witness :
    validateDecisionInput ⟨"Hello".toList, "0123456789".toList, none, some ["A".toList]⟩ =
      some ⟨"Hello".toList, "0123456789".toList, [], ["A".toList]⟩ ∧
    validateDecisionInput ⟨"Hi".toList, "short".toList, none, none⟩ = none ∧
    create_decision (σ := Unit) (fun _ => 0) ⟨"Hi".toList, "short".toList, none, none⟩
      (fun _ => (Except.ok (), [])) (fun _ _ => (Except.ok (), []))
      (fun _ _ _ => (Except.ok (), [])) = none :=
  ⟨by decide, by decide,
    (C10_decision_input_bounds (σ := Unit) (fun _ => 0)
      ⟨"Hi".toList, "short".toList, none, none⟩ (fun _ => (Except.ok (), []))
      (fun _ _ => (Except.ok (), [])) (fun _ _ _ => (Except.ok (), []))).2.2 (by decide)⟩

lemma execute_with_logging_ok {σ : Type} (clock : Nat → Int) (name : PyStr)
    (run : Nat → Except PyStr σ × List CallRecord) (st : OrchState) {v : σ}
    {calls : List CallRecord} (h : run st.callIdx = (Except.ok v, calls)) :
    execute_with_logging clock name run st =
      (Except.ok v,
        ⟨st.tick + 2, st.callIdx + calls.length,
          st.log ++ [ExecEntry.stage ⟨name, LogStatus.success, none, clock st.tick,
            clock (st.tick + 1), clock (st.tick + 1) - clock st.tick,
            updatedModel calls st.currentModel⟩],
          updatedModel calls st.currentModel⟩) := by
  unfold execute_with_logging
  rw [h]

lemma execute_with_logging_err {σ : Type} (clock : Nat → Int) (name : PyStr)
    (run : Nat → Except PyStr σ × List CallRecord) (st : OrchState) {e : PyStr}
    {calls : List CallRecord} (h : run st.callIdx = (Except.error e, calls)) :
    execute_with_logging clock name run st =
      (Except.error e,
        ⟨st.tick + 2, st.callIdx + calls.length,
          st.log ++ [ExecEntry.stage ⟨name, LogStatus.failed, some e, clock st.tick,
            clock (st.tick + 1), clock (st.tick + 1) - clock st.tick, none⟩],
          updatedModel calls st.currentModel⟩) := by
  unfold execute_with_logging
  rw [h]

lemma process_decision_fail1 {σ : Type} (clock : Nat → Int) (inp : DecisionInput)
    (run1 : Nat → Except PyStr σ × List CallRecord)
    (run2 : σ → Nat → Except PyStr σ × List CallRecord)
    (run3 : σ → σ → Nat → Except PyStr σ × List CallRecord) {e : PyStr}
    {calls1 : List CallRecord} (h1 : run1 0 = (Except.error e, calls1)) :
    process_decision clock inp run1 run2 run3 =
      ⟨Except.error e,
        [ExecEntry.stage ⟨structuringName, LogStatus.failed, some e, clock 1, clock 2,
            clock 2 - clock 1, none⟩,
          ExecEntry.pipelineFailed e (clock 3) (clock 3 - clock 0)],
        none⟩ := by
  simp only [process_decision, execute_with_logging, h1, Nat.zero_add]
  rfl

lemma process_decision_fail2 {σ : Type} (clock : Nat → Int) (inp : DecisionInput)
    (run1 : Nat → Except PyStr σ × List CallRecord)
    (run2 : σ → Nat → Except PyStr σ × List CallRecord)
    (run3 : σ → σ → Nat → Except PyStr σ × List CallRecord) {a : σ} {e : PyStr}
    {calls1 calls2 : List CallRecord} (h1 : run1 0 = (Except.ok a, calls1))
    (h2 : run2 a calls1.length = (Except.error e, calls2)) :
    process_decision clock inp run1 run2 run3 =
      ⟨Except.error e,
        [ExecEntry.stage ⟨structuringName, LogStatus.success, none, clock 1, clock 2,
            clock 2 - clock 1, updatedModel calls1 none⟩,
          ExecEntry.stage ⟨biasName, LogStatus.failed, some e, clock 3, clock 4,
            clock 4 - clock 3, none⟩,
          ExecEntry.pipelineFailed e (clock 5) (clock 5 - clock 0)],
        none⟩ := by
  simp only [process_decision, execute_with_logging, h1, h2, Nat.zero_add]
  rfl

lemma process_decision_fail3 {σ : Type} (clock : Nat → Int) (inp : DecisionInput)
    (run1 : Nat → Except PyStr σ × List CallRecord)
    (run2 : σ → Nat → Except PyStr σ × List CallRecord)
    (run3 : σ → σ → Nat → Except PyStr σ × List CallRecord) {a b : σ} {e : PyStr}
    {calls1 calls2 calls3 : List CallRecord} (h1 : run1 0 = (Except.ok a, calls1))
    (h2 : run2 a calls1.length = (Except.ok b, calls2))
    (h3 : run3 a b (calls1.length + calls2.length) = (Except.error e, calls3)) :
    process_decision clock inp run1 run2 run3 =
      ⟨Except.error e,
        [ExecEntry.stage ⟨structuringName, LogStatus.success, none, clock 1, clock 2,
            clock 2 - clock 1, updatedModel calls1 none⟩,
          ExecEntry.stage ⟨biasName, LogStatus.success, none, clock 3, clock 4,
            clock 4 - clock 3, updatedModel calls2 (updatedModel calls1 none)⟩,
          ExecEntry.stage ⟨outcomeName, LogStatus.failed, some e, clock 5, clock 6,
            clock 6 - clock 5, none⟩,
          ExecEntry.pipelineFailed e (clock 7) (clock 7 - clock 0)],
        none⟩ := by
  simp only [process_decision, execute_with_logging, h1, h2, h3, Nat.zero_add]
  rfl

lemma process_decision_ok {σ : Type} (clock : Nat → Int) (inp : DecisionInput)
    (run1 : Nat → Except PyStr σ × List CallRecord)
    (run2 : σ → Nat → Except PyStr σ × List CallRecord)
    (run3 : σ → σ → Nat → Except PyStr σ × List CallRecord) {a b c : σ}
    {calls1 calls2 calls3 : List CallRecord} (h1 : run1 0 = (Except.ok a, calls1))
    (h2 : run2 a calls1.length = (Except.ok b, calls2))
    (h3 : run3 a b (calls1.length + calls2.length) = (Except.ok c, calls3)) :
    process_decision clock inp run1 run2 run3 =
      ⟨Except.ok ⟨inp.title, inp.context, inp.constraints, inp.options, a, b, c,
          [ExecEntry.stage ⟨structuringName, LogStatus.success, none, clock 1, clock 2,
              clock 2 - clock 1, updatedModel calls1 none⟩,
            ExecEntry.stage ⟨biasName, LogStatus.success, none, clock 3, clock 4,
              clock 4 - clock 3, updatedModel calls2 (updatedModel calls1 none)⟩,
            ExecEntry.stage ⟨outcomeName, LogStatus.success, none, clock 5, clock 6,
              clock 6 - clock 5,
              updatedModel calls3 (updatedModel calls2 (updatedModel calls1 none))⟩]⟩,
        [ExecEntry.stage ⟨structuringName, LogStatus.success, none, clock 1, clock 2,
            clock 2 - clock 1, updatedModel calls1 none⟩,
          ExecEntry.stage ⟨biasName, LogStatus.success, none, clock 3, clock 4,
            clock 4 - clock 3, updatedModel calls2 (updatedModel calls1 none)⟩,
          ExecEntry.stage ⟨outcomeName, LogStatus.success, none, clock 5, clock 6,
            clock 6 - clock 5,
            updatedModel calls3 (updatedModel calls2 (updatedModel calls1 none))⟩],
        some ⟨inp.title, inp.context, inp.constraints, inp.options, a, b, c,
          [ExecEntry.stage ⟨structuringName, LogStatus.success, none, clock 1, clock 2,
              clock 2 - clock 1, updatedModel calls1 none⟩,
            ExecEntry.stage ⟨biasName, LogStatus.success, none, clock 3, clock 4,
              clock 4 - clock 3, updatedModel calls2 (updatedModel calls1 none)⟩,
            ExecEntry.stage ⟨outcomeName, LogStatus.success, none, clock 5, clock 6,
              clock 6 - clock 5,
              updatedModel calls3 (updatedModel calls2 (updatedModel calls1 none))⟩]⟩⟩ := by
  simp only [process_decision, execute_with_logging, h1, h2, h3, Nat.zero_add]
  rfl

/-- C2 counterexample: in a run whose structuring stage's client makes
two upstream attempts (one retry), the execution log contains exactly
one entry for that stage — not one entry per attempt — and exactly three
entries overall (one per stage call), refuting the claim that a stage
whose client retried `k` times contributes `k + 1` entries. -/
theorem C2_counterexample :
    (clientStage cfg1 oracleRetryOnce validateGood 0).2.length = 2 ∧
    countAgentEntries pipeEx.log structuringName = 1 ∧
    pipeEx.log.length = 3 := by
  have hcb : validateGood (clean_json_response ['b', 'a', 'd']) = none := by decide
  have hcg : validateGood (clean_json_response ['g', 'o', 'o', 'd']) =
      some ['g', 'o', 'o', 'd'] := by decide
  have ho0 : oracleRetryOnce 0 = CallResult.ok ['b', 'a', 'd'] := by decide
  have ho1 : oracleRetryOnce 1 = CallResult.ok ['g', 'o', 'o', 'd'] := by decide
  have ho2 : oracleRetryOnce 2 = CallResult.ok ['g', 'o', 'o', 'd'] := by decide
  have ho3 : oracleRetryOnce 3 = CallResult.ok ['g', 'o', 'o', 'd'] := by decide
  have hgen1 : generate_structured cfg1 oracleRetryOnce validateGood Model.primary 1 1 =
      (Except.ok ['g', 'o', 'o', 'd'], [⟨Model.primary, 1⟩]) := by
    rw [generate_structured, ho1]
    simp [hcg]
  have hgen0 : generate_structured cfg1 oracleRetryOnce validateGood Model.primary 0 0 =
      (Except.ok ['g', 'o', 'o', 'd'], [⟨Model.primary, 0⟩, ⟨Model.primary, 1⟩]) := by
    rw [generate_structured, ho0]
    simp only [hcb]
    rw [if_pos (show 0 < cfg1.maxRetries by decide), hgen1]
  have hgen2 : generate_structured cfg1 oracleRetryOnce validateGood Model.primary 0 2 =
      (Except.ok ['g', 'o', 'o', 'd'], [⟨Model.primary, 0⟩]) := by
    rw [generate_structured, ho2]
    simp [hcg]
  have hgen3 : generate_structured cfg1 oracleRetryOnce validateGood Model.primary 0 3 =
      (Except.ok ['g', 'o', 'o', 'd'], [⟨Model.primary, 0⟩]) := by
    rw [generate_structured, ho3]
    simp [hcg]
  have hs1 : clientStage cfg1 oracleRetryOnce validateGood 0 =
      (Except.ok ['g', 'o', 'o', 'd'], [⟨Model.primary, 0⟩, ⟨Model.primary, 1⟩]) := hgen0
  have hpipe := process_decision_ok clockId inpEx
    (clientStage cfg1 oracleRetryOnce validateGood)
    (fun _ => clientStage cfg1 oracleRetryOnce validateGood)
    (fun _ _ => clientStage cfg1 oracleRetryOnce validateGood)
    hs1 hgen2 hgen3
  refine ⟨by simp [hs1], ?_, ?_⟩
  · show countAgentEntries (process_decision clockId inpEx _ _ _).log structuringName = 1
    rw [hpipe]
    decide
  · show (process_decision clockId inpEx _ _ _).log.length = 3
    rw [hpipe]
    rfl

/-- C2 (amended): each stage call appends exactly one ExecutionLogEntry
to the execution log — a success or failure record for the whole stage
call, regardless of how many upstream attempts the client made (the
per-attempt records go to the application logger, not the execution
log); the log therefore contains one entry per attempted stage call, in
chronological pipeline order. -/
theorem C2_one_entry_per_stage_amended {σ : Type} :
    (∀ (clock : Nat → Int) (name : PyStr) (run : Nat → Except PyStr σ × List CallRecord)
        (st : OrchState), ∃ se : StageEntry,
          (execute_with_logging clock name run st).2.log = st.log ++ [ExecEntry.stage se] ∧
          se.agent = name) ∧
    (∀ (clock : Nat → Int) (inp : DecisionInput)
        (run1 : Nat → Except PyStr σ × List CallRecord)
        (run2 : σ → Nat → Except PyStr σ × List CallRecord)
        (run3 : σ → σ → Nat → Except PyStr σ × List CallRecord),
      ∃ k, k ≤ 3 ∧
        (process_decision clock inp run1 run2 run3).log.filterMap
            (fun ent => match ent with
              | ExecEntry.stage se => some se.agent
              | _ => none) =
          List.take k [structuringName, biasName, outcomeName]) := by
  constructor
  · intro clock name run st
    rcases h : run st.callIdx with ⟨res, calls⟩
    cases res with
    | ok v =>
      exact ⟨⟨name, LogStatus.success, none, clock st.tick, clock (st.tick + 1),
          clock (st.tick + 1) - clock st.tick, updatedModel calls st.currentModel⟩,
        by rw [execute_with_logging_ok clock name run st h], rfl⟩
    | error e =>
      exact ⟨⟨name, LogStatus.failed, some e, clock st.tick, clock (st.tick + 1),
          clock (st.tick + 1) - clock st.tick, none⟩,
        by rw [execute_with_logging_err clock name run st h], rfl⟩
  · intro clock inp run1 run2 run3
    rcases h1 : run1 0 with ⟨res1, calls1⟩
    cases res1 with
    | error e =>
      exact ⟨1, by omega, by rw [process_decision_fail1 clock inp run1 run2 run3 h1]; rfl⟩
    | ok a =>
      rcases h2 : run2 a calls1.length with ⟨res2, calls2⟩
      cases res2 with
      | error e =>
        exact ⟨2, by omega, by rw [process_decision_fail2 clock inp run1 run2 run3 h1 h2]; rfl⟩
      | ok b =>
        rcases h3 : run3 a b (calls1.length + calls2.length) with ⟨res3, calls3⟩
        cases res3 with
        | error e =>
          exact ⟨3, by omega,
            by rw [process_decision_fail3 clock inp run1 run2 run3 h1 h2 h3]; rfl⟩
        | ok c =>
          exact ⟨3, by omega,
            by rw [process_decision_ok clock inp run1 run2 run3 h1 h2 h3]; rfl⟩

/-- C5: if any stage returns a terminal failure, the pipeline aborts
immediately — the log holds stage entries only for the stages attempted
(in order, all earlier ones successful, the failing one last, carrying
the propagated error), followed by a final `pipeline_failed` entry
recording the total elapsed time — the failure propagates to the caller
and nothing is handed to the persistence collaborator. -/
theorem C5_all_or_nothing {σ : Type} (clock : Nat → Int) (inp : DecisionInput)
    (run1 : Nat → Except PyStr σ × List CallRecord)
    (run2 : σ → Nat → Except PyStr σ × List CallRecord)
    (run3 : σ → σ → Nat → Except PyStr σ × List CallRecord) (e : PyStr)
    (h : (process_decision clock inp run1 run2 run3).result = Except.error e) :
    (process_decision clock inp run1 run2 run3).persisted = none ∧
    ∃ (pre : List StageEntry) (tEnd : Nat),
      (process_decision clock inp run1 run2 run3).log =
        pre.map ExecEntry.stage ++
          [ExecEntry.pipelineFailed e (clock tEnd) (clock tEnd - clock 0)] ∧
      pre.length ≤ 3 ∧
      pre.map (fun se => se.agent) =
        List.take pre.length [structuringName, biasName, outcomeName] ∧
      (∃ last, pre.getLast? = some last ∧ last.status = LogStatus.failed ∧
        last.error = some e) ∧
      (∀ se ∈ pre.dropLast, se.status = LogStatus.success) := by
  rcases h1 : run1 0 with ⟨res1, calls1⟩
  cases res1 with
  | error e1 =>
    have hp := process_decision_fail1 clock inp run1 run2 run3 h1
    rw [hp] at h
    simp only [Except.error.injEq] at h
    subst h
    rw [hp]
    exact ⟨rfl,
      [⟨structuringName, LogStatus.failed, some e1, clock 1, clock 2,
        clock 2 - clock 1, none⟩], 3, rfl, by simp, rfl, ⟨_, rfl, rfl, rfl⟩,
      by simp⟩
  | ok a =>
    rcases h2 : run2 a calls1.length with ⟨res2, calls2⟩
    cases res2 with
    | error e1 =>
      have hp := process_decision_fail2 clock inp run1 run2 run3 h1 h2
      rw [hp] at h
      simp only [Except.error.injEq] at h
      subst h
      rw [hp]
      refine ⟨rfl,
        [⟨structuringName, LogStatus.success, none, clock 1, clock 2,
            clock 2 - clock 1, updatedModel calls1 none⟩,
          ⟨biasName, LogStatus.failed, some e1, clock 3, clock 4,
            clock 4 - clock 3, none⟩], 5, rfl, by simp, rfl, ⟨_, rfl, rfl, rfl⟩, ?_⟩
      intro se hse
      simp only [List.dropLast, List.mem_singleton] at hse
      subst hse
      rfl
    | ok b =>
      rcases h3 : run3 a b (calls1.length + calls2.length) with ⟨res3, calls3⟩
      cases res3 with
      | error e1 =>
        have hp := process_decision_fail3 clock inp run1 run2 run3 h1 h2 h3
        rw [hp] at h
        simp only [Except.error.injEq] at h
        subst h
        rw [hp]
        refine ⟨rfl,
          [⟨structuringName, LogStatus.success, none, clock 1, clock 2,
              clock 2 - clock 1, updatedModel calls1 none⟩,
            ⟨biasName, LogStatus.success, none, clock 3, clock 4,
              clock 4 - clock 3, updatedModel calls2 (updatedModel calls1 none)⟩,
            ⟨outcomeName, LogStatus.failed, some e1, clock 5, clock 6,
              clock 6 - clock 5, none⟩], 7, rfl, by simp, rfl,
          ⟨_, rfl, rfl, rfl⟩, ?_⟩
        intro se hse
        simp only [List.dropLast, List.mem_cons, List.mem_singleton] at hse
        rcases hse with rfl | rfl | hse
        · rfl
        · rfl
        · simp at hse
      | ok c =>
        have hp := process_decision_ok clock inp run1 run2 run3 h1 h2 h3
        rw [hp] at h
        simp at h

/-- Witness for C5: the bias-detection stage fails terminally, the
pipeline aborts with only the two attempted stages logged plus the final
`pipeline_failed` entry, and nothing is persisted. -/
theorem C5_witness :
    (process_decision (σ := Unit) clockId inpEx (fun _ => (Except.ok (), []))
        (fun _ _ => (Except.error "boom".toList, []))
        (fun _ _ _ => (Except.ok (), []))).result = Except.error "boom".toList ∧
    ((process_decision (σ := Unit) clockId inpEx (fun _ => (Except.ok (), []))
        (fun _ _ => (Except.error "boom".toList, []))
        (fun _ _ _ => (Except.ok (), []))).persisted = none ∧
      ∃ (pre : List StageEntry) (tEnd : Nat),
        (process_decision (σ := Unit) clockId inpEx (fun _ => (Except.ok (), []))
            (fun _ _ => (Except.error "boom".toList, []))
            (fun _ _ _ => (Except.ok (), []))).log =
          pre.map ExecEntry.stage ++
            [ExecEntry.pipelineFailed "boom".toList (clockId tEnd)
              (clockId tEnd - clockId 0)] ∧
        pre.length ≤ 3 ∧
        pre.map (fun se => se.agent) =
          List.take pre.length [structuringName, biasName, outcomeName] ∧
        (∃ last, pre.getLast? = some last ∧ last.status = LogStatus.failed ∧
          last.error = some "boom".toList) ∧
        (∀ se ∈ pre.dropLast, se.status = LogStatus.success)) :=
  ⟨rfl, C5_all_or_nothing clockId inpEx (fun _ => (Except.ok (), []))
    (fun _ _ => (Except.error "boom".toList, [])) (fun _ _ _ => (Except.ok (), []))
    "boom".toList rfl⟩

lemma containsSub_append (n pre suf : PyStr) : containsSub n (pre ++ (n ++ suf)) = true := by
  induction pre with
  | nil =>
    simp only [List.nil_append]
    cases n with
    | nil => cases suf <;> simp [containsSub, isPre]
    | cons a as =>
      simp only [containsSub, Bool.or_eq_true]
      exact Or.inl (isPre_append_self (a :: as) suf)
  | cons c pre ih => simp [containsSub, ih]

/-- C6: a reflection request for a well-formed decision id that is not
in the store returns a terminal failure of the same uniform kind whose
message contains the recognizable `not found` substring, and the
reflection generation stage is never invoked. -/
theorem C6_not_found_distinguished {σ : Type} (clock : Nat → Int)
    (findById : Nat → Option (StoredDecision σ))
    (runReflection : StoredDecision σ → PyStr → Nat → Except PyStr σ × List CallRecord)
    (id outcome : PyStr) (u : Nat)
    (hparse : parseUUID id = Except.ok u) (hmiss : findById u = none) :
    (add_reflection clock findById runReflection id outcome).result =
      Except.error (notFoundMessage id) ∧
    containsSub "not found".toList (notFoundMessage id) = true ∧
    (add_reflection clock findById runReflection id outcome).stageCalls = 0 := by
  refine ⟨?_, ?_, ?_⟩
  · simp only [add_reflection, hparse, hmiss]
  · rw [show notFoundMessage id =
      (("Decision ".toList ++ id) ++ [' ']) ++ ("not found".toList ++ []) from by
        simp [notFoundMessage]]
    exact containsSub_append _ _ _
  · simp only [add_reflection, hparse, hmiss]

/-- Witness for C6: an all-zero 32-digit id parses as a UUID, is absent
from an empty store, and yields the `not found` failure with no stage
invocation. -/
theorem C6_witness :
    parseUUID "00000000000000000000000000000000".toList = Except.ok 0 ∧
    ((add_reflection (σ := Unit) (fun _ => 0) (fun _ => none)
        (fun _ _ _ => (Except.ok (), []))
        "00000000000000000000000000000000".toList "done".toList).result =
      Except.error (notFoundMessage "00000000000000000000000000000000".toList) ∧
    containsSub "not found".toList
      (notFoundMessage "00000000000000000000000000000000".toList) = true ∧
    (add_reflection (σ := Unit) (fun _ => 0) (fun _ => none)
        (fun _ _ _ => (Except.ok (), []))
        "00000000000000000000000000000000".toList "done".toList).stageCalls = 0) :=
  ⟨rfl, C6_not_found_distinguished (fun _ => 0) (fun _ => none)
    (fun _ _ _ => (Except.ok (), [])) "00000000000000000000000000000000".toList
    "done".toList 0 rfl rfl⟩

/-- C8 (code bug): on a successful reflection for a decision whose
existing execution log is non-empty — every decision created by the
pipeline, which always persists stage entries — the code's in-place
`extend` on the untracked `JSONB` column is skipped by `commit()` and
clobbered by `refresh()`, so the returned decision carries the
reflection insight, actual outcome and actual-outcome date but its
execution log is *unchanged*: the stage's new entry is lost, and the
log is not the extension the claim requires. -/
theorem C8_reflection_log_lost {σ : Type} (clock : Nat → Int)
    (findById : Nat → Option (StoredDecision σ))
    (runReflection : StoredDecision σ → PyStr → Nat → Except PyStr σ × List CallRecord)
    (id outcome : PyStr) (u : Nat) (d : StoredDecision σ) (insight : σ)
    (calls : List CallRecord)
    (hparse : parseUUID id = Except.ok u) (hfound : findById u = some d)
    (hne : d.execution_log ≠ [])
    (hrun : runReflection d outcome 0 = (Except.ok insight, calls)) :
    (add_reflection clock findById runReflection id outcome).result =
      Except.ok { d with
        reflection_insight := some insight,
        actual_outcome := some outcome,
        actual_outcome_date := some (clock 2) } ∧
    ∀ dec, (add_reflection clock findById runReflection id outcome).result = Except.ok dec →
      dec.execution_log = d.execution_log ∧
      dec.execution_log ≠ d.execution_log ++
        [ExecEntry.stage ⟨reflectionName, LogStatus.success, none, clock 0, clock 1,
          clock 1 - clock 0, updatedModel calls none⟩] := by
  have hE : d.execution_log.isEmpty = false := by
    cases hdl : d.execution_log with
    | nil => exact absurd hdl hne
    | cons a l => rfl
  have hres : (add_reflection clock findById runReflection id outcome).result =
      Except.ok { d with
        reflection_insight := some insight,
        actual_outcome := some outcome,
        actual_outcome_date := some (clock 2) } := by
    simp only [add_reflection, hparse, hfound]
    rw [execute_with_logging_ok clock reflectionName (runReflection d outcome)
      ⟨0, 0, [], none⟩ hrun]
    simp only [hE, Bool.false_eq_true, if_false]
  refine ⟨hres, ?_⟩
  intro dec hdec
  rw [hres] at hdec
  injection hdec with h
  subst h
  refine ⟨rfl, ?_⟩
  intro hcontra
  have hlen := congrArg List.length hcontra
  simp at hlen

/-- Witness for C8: a stored decision with one prior log entry comes
back from a successful reflection with the reflection fields set but
with its log still holding only that prior entry — the new
`ReflectionAgent` entry is lost. -/
theorem C8_witness :
    ([ExecEntry.stage ⟨"X".toList, LogStatus.success, none, 0, 1, 1, none⟩] :
        List ExecEntry) ≠ [] ∧
    (add_reflection (σ := Unit) (fun t => (t : Int))
        (fun _ => some ⟨"T".toList, "C".toList, [], [], (), (), (), none, none, none,
          [ExecEntry.stage ⟨"X".toList, LogStatus.success, none, 0, 1, 1, none⟩]⟩)
        (fun _ _ _ => (Except.ok (), [⟨Model.primary, 0⟩]))
        "00000000000000000000000000000001".toList "It went well".toList).result =
      Except.ok ⟨"T".toList, "C".toList, [], [], (), (), (), some (),
        some "It went well".toList, some 2,
        [ExecEntry.stage ⟨"X".toList, LogStatus.success, none, 0, 1, 1, none⟩]⟩ :=
  ⟨by decide,
    (C8_reflection_log_lost (σ := Unit) (fun t => (t : Int))
      (fun _ => some ⟨"T".toList, "C".toList, [], [], (), (), (), none, none, none,
        [ExecEntry.stage ⟨"X".toList, LogStatus.success, none, 0, 1, 1, none⟩]⟩)
      (fun _ _ _ => (Except.ok (), [⟨Model.primary, 0⟩]))
      "00000000000000000000000000000001".toList "It went well".toList 1
      ⟨"T".toList, "C".toList, [], [], (), (), (), none, none, none,
        [ExecEntry.stage ⟨"X".toList, LogStatus.success, none, 0, 1, 1, none⟩]⟩
      () [⟨Model.primary, 0⟩] rfl rfl (by decide) rfl).1⟩

/-- C9 counterexample: the malformed id `0000000000000000000000znot found`
(32 characters, not hex) is echoed into the `int()` parse error, so the
wrapped generic failure message does contain the `not found` substring —
refuting the claim that a malformed id never produces a message with
that substring. -/
theorem C9_counterexample :
    parseUUID "0000000000000000000000znot found".toList =
      Except.error (invalidLiteralMsg "0000000000000000000000znot found".toList) ∧
    (add_reflection (σ := Unit) (fun _ => 0) (fun _ => none)
        (fun _ _ _ => (Except.ok (), []))
        "0000000000000000000000znot found".toList "done".toList).result =
      Except.error
        (wrapReflectionError (invalidLiteralMsg "0000000000000000000000znot found".toList)) ∧
    containsSub "not found".toList
      (wrapReflectionError (invalidLiteralMsg "0000000000000000000000znot found".toList)) =
      true := by
  refine ⟨rfl, rfl, by decide⟩

/-- C9 (amended): for a string whose cleaned hex form does not have
length 32 — every malformed id except a 32-character non-hex one — the
failure is the generic `Failed to add reflection:` wrapping of the
fixed badly-formed parse error, whose message does not contain the
`not found` substring, and the generation stage is never invoked; a
32-character non-hex id instead has the id echoed into the message, so
an id containing `not found` is misclassified by substring matching. -/
theorem C9_malformed_id_generic_failure {σ : Type} (clock : Nat → Int)
    (findById : Nat → Option (StoredDecision σ))
    (runReflection : StoredDecision σ → PyStr → Nat → Except PyStr σ × List CallRecord)
    (id outcome : PyStr) (hlen : (uuidClean id).length ≠ 32) :
    (add_reflection clock findById runReflection id outcome).result =
      Except.error (wrapReflectionError badlyFormedMsg) ∧
    containsSub "not found".toList (wrapReflectionError badlyFormedMsg) = false ∧
    (add_reflection clock findById runReflection id outcome).stageCalls = 0 := by
  have hp : parseUUID id = Except.error badlyFormedMsg := by
    unfold parseUUID
    simp [hlen]
  refine ⟨?_, by decide, ?_⟩ <;> simp only [add_reflection, hp]

/-- Witness for C9 (amended): the three-character id `abc` fails the
length check and yields the generic wrapped failure without the
`not found` substring and with no stage invocation. -/
theorem C9_witness :
    (uuidClean "abc".toList).length ≠ 32 ∧
    ((add_reflection (σ := Unit) (fun _ => 0) (fun _ => none)
        (fun _ _ _ => (Except.ok (), [])) "abc".toList "done".toList).result =
      Except.error (wrapReflectionError badlyFormedMsg) ∧
    containsSub "not found".toList (wrapReflectionError badlyFormedMsg) = false ∧
    (add_reflection (σ := Unit) (fun _ => 0) (fun _ => none)
        (fun _ _ _ => (Except.ok (), [])) "abc".toList "done".toList).stageCalls = 0) :=
  ⟨by decide, C9_malformed_id_generic_failure (fun _ => 0) (fun _ => none)
    (fun _ _ _ => (Except.ok (), [])) "abc".toList "done".toList (by decide)⟩

end DecisionTrace
